import Mathlib

/-!
Shallow embedding of the PMS (PublicMusicService) relay, `cmd/pms/main.go`:
a single-endpoint HTTP relay that validates a song id, builds an upstream
query, performs one outbound GET, decodes the upstream JSON body and
re-publishes it (or a normalized error) to the caller.

JSON documents are modelled by the inductive `JValue`; JSON numbers are
modelled as rationals (exact decimal values; binary floating-point rounding
of `float64` fields is not modelled, no claim depends on it).  Go's
`encoding/json` decoding of a document into the `SongURLResponse` struct is
modelled by `decodeSongURLResponse`, and `c.JSON` re-serialization by
`marshalSongURLResponse`.
-/

namespace PMS

/-- A parsed JSON document.  Objects keep their fields as an ordered list of
key/value pairs (Go's decoder processes keys in textual order, later
duplicates overwriting earlier ones; Go's encoder emits struct fields in
declaration order and map keys sorted). -/
inductive JValue where
  | null
  | bool (b : Bool)
  | num (q : ℚ)
  | str (s : String)
  | arr (elems : List JValue)
  | obj (fields : List (String × JValue))


/-- One element of the `data` array of the upstream body, mirroring the
anonymous struct inside Go's `SongURLResponse`.  Field defaults are the Go
zero values (fields left untouched by `json.Unmarshal` keep them).  The two
`interface{}` fields `uf` and `freeTrialInfo` hold an arbitrary JSON value
passed through verbatim; their zero value (nil interface) marshals to
`null`. -/
structure TrackEntry where
  id : Int := 0
  url : String := ""
  br : Int := 0
  size : Int := 0
  md5 : String := ""
  code : Int := 0
  expi : Int := 0
  type : String := ""
  gain : ℚ := 0
  peak : ℚ := 0
  fee : Int := 0
  uf : JValue := .null
  payed : Int := 0
  flag : Int := 0
  canExtend : Bool := false
  freeTrialInfo : JValue := .null
  level : String := ""


/-- Go's `SongURLResponse` struct: the decoded upstream body.  `data` is a
Go slice; `none` models the nil slice (marshals to `null`), `some xs` a
non-nil slice (marshals to a JSON array). -/
structure SongURLResponse where
  code : Int := 0
  data : Option (List TrackEntry) := none


/-- Decode a JSON value into a Go `int` field (64-bit): `null` is a no-op,
a number must be integral and fit in int64, anything else is a type
error. -/
def decInt (v : JValue) (cur : Int) : Option Int :=
  match v with
  | .null => some cur
  | .num q =>
      if q.den = 1 ∧ -(2 ^ 63 : Int) ≤ q.num ∧ q.num < 2 ^ 63 then some q.num else none
  | _ => none

/-- Decode a JSON value into a Go `string` field: `null` is a no-op, a JSON
string is stored, anything else is a type error. -/
def decStr (v : JValue) (cur : String) : Option String :=
  match v with
  | .null => some cur
  | .str s => some s
  | _ => none

/-- Decode a JSON value into a Go `bool` field. -/
def decBoolField (v : JValue) (cur : Bool) : Option Bool :=
  match v with
  | .null => some cur
  | .bool b => some b
  | _ => none

/-- Decode a JSON value into a Go `float64` field: any JSON number is
accepted (stored here exactly, as a rational). -/
def decFloat (v : JValue) (cur : ℚ) : Option ℚ :=
  match v with
  | .null => some cur
  | .num q => some q
  | _ => none

/-- Go's `encoding/json` matches an object key against a struct field tag
exactly, falling back to a case-insensitive match.  No two tags of this
program collide case-insensitively, so the fold is a single case-insensitive
comparison. -/
def keyMatch (k tag : String) : Bool :=
  k == tag || String.mk (k.data.map Char.toLower) == String.mk (tag.data.map Char.toLower)

/-- Assign one JSON object field into a `TrackEntry`, per the struct's json
tags; an unknown key is ignored. -/
def assignTrackField (t : TrackEntry) (k : String) (v : JValue) : Option TrackEntry :=
  if keyMatch k "id" then (decInt v t.id).map fun x => { t with id := x }
  else if keyMatch k "url" then (decStr v t.url).map fun x => { t with url := x }
  else if keyMatch k "br" then (decInt v t.br).map fun x => { t with br := x }
  else if keyMatch k "size" then (decInt v t.size).map fun x => { t with size := x }
  else if keyMatch k "md5" then (decStr v t.md5).map fun x => { t with md5 := x }
  else if keyMatch k "code" then (decInt v t.code).map fun x => { t with code := x }
  else if keyMatch k "expi" then (decInt v t.expi).map fun x => { t with expi := x }
  else if keyMatch k "type" then (decStr v t.type).map fun x => { t with type := x }
  else if keyMatch k "gain" then (decFloat v t.gain).map fun x => { t with gain := x }
  else if keyMatch k "peak" then (decFloat v t.peak).map fun x => { t with peak := x }
  else if keyMatch k "fee" then (decInt v t.fee).map fun x => { t with fee := x }
  else if keyMatch k "uf" then some { t with uf := v }
  else if keyMatch k "payed" then (decInt v t.payed).map fun x => { t with payed := x }
  else if keyMatch k "flag" then (decInt v t.flag).map fun x => { t with flag := x }
  else if keyMatch k "canExtend" then (decBoolField v t.canExtend).map fun x => { t with canExtend := x }
  else if keyMatch k "freeTrialInfo" then some { t with freeTrialInfo := v }
  else if keyMatch k "level" then (decStr v t.level).map fun x => { t with level := x }
  else some t

/-- Decode one element of the `data` array: `null` leaves the zero struct,
an object is folded field by field, anything else is a type error. -/
def decodeTrackEntry (v : JValue) : Option TrackEntry :=
  match v with
  | .null => some {}
  | .obj fields => fields.foldlM (fun t kv => assignTrackField t kv.1 kv.2) {}
  | _ => none

/-- Decode a JSON value into the `data` slice field: `null` sets the slice
to nil, an array decodes element-wise, anything else is a type error. -/
def decData (v : JValue) (_cur : Option (List TrackEntry)) :
    Option (Option (List TrackEntry)) :=
  match v with
  | .null => some none
  | .arr xs => (xs.mapM decodeTrackEntry).map some
  | _ => none

/-- Assign one JSON object field into a `SongURLResponse`; an unknown key is
ignored. -/
def assignRespField (r : SongURLResponse) (k : String) (v : JValue) :
    Option SongURLResponse :=
  if keyMatch k "code" then (decInt v r.code).map fun x => { r with code := x }
  else if keyMatch k "data" then (decData v r.data).map fun x => { r with data := x }
  else some r

/-- Model of `json.Unmarshal(body, &songResp)` on an already-parsed JSON
document: `null` leaves the zero struct, an object is folded field by field
(later duplicate keys overwrite), any other document is a type error
(`none` = `json.Unmarshal` returns a non-nil error). -/
def decodeSongURLResponse (v : JValue) : Option SongURLResponse :=
  match v with
  | .null => some {}
  | .obj fields => fields.foldlM (fun r kv => assignRespField r kv.1 kv.2) {}
  | _ => none

/-- `c.JSON` serialization of one `TrackEntry`: struct fields in declaration
order under their json tags. -/
def marshalTrackEntry (t : TrackEntry) : JValue :=
  .obj [("id", .num t.id), ("url", .str t.url), ("br", .num t.br),
        ("size", .num t.size), ("md5", .str t.md5), ("code", .num t.code),
        ("expi", .num t.expi), ("type", .str t.type), ("gain", .num t.gain),
        ("peak", .num t.peak), ("fee", .num t.fee), ("uf", t.uf),
        ("payed", .num t.payed), ("flag", .num t.flag),
        ("canExtend", .bool t.canExtend), ("freeTrialInfo", t.freeTrialInfo),
        ("level", .str t.level)]

/-- `c.JSON` serialization of a `SongURLResponse`: a nil `data` slice
marshals to `null`, a non-nil slice to an array. -/
def marshalSongURLResponse (r : SongURLResponse) : JValue :=
  .obj [("code", .num r.code),
        ("data", match r.data with
                 | none => .null
                 | some xs => .arr (xs.map marshalTrackEntry))]

/-- Fold a list of decimal digit characters into a natural number; any
non-digit character (or an empty digit string) is a parse error. -/
def parseDigits (cs : List Char) : Option Nat :=
  match cs with
  | [] => none
  | _ => cs.foldlM (fun acc c => if c.isDigit then some (acc * 10 + (c.toNat - 48)) else none) 0

/-- Go's `strconv.Atoi` (= `ParseInt(s, 10, 0)` with 64-bit `int`): an
optional leading `+` or `-` sign followed by a non-empty run of ASCII
decimal digits, value required to fit in int64; `none` models a non-nil
error. -/
def Atoi (s : String) : Option Int :=
  let cs := s.toList
  match cs with
  | [] => none
  | c :: rest =>
    let signed : Bool × List Char :=
      if c = '-' then (true, rest) else if c = '+' then (false, rest) else (false, cs)
    match parseDigits signed.2 with
    | none => none
    | some m =>
      let v : Int := if signed.1 then -(m : Int) else (m : Int)
      if -(2 ^ 63 : Int) ≤ v ∧ v < 2 ^ 63 then some v else none

/-- Go's `strconv.Itoa`: the canonical decimal string of an integer. -/
def Itoa (n : Int) : String := toString n

/-- Upper-case hexadecimal digit, as emitted by Go's URL escaping. -/
def hexDigit (n : Nat) : Char :=
  if n < 10 then Char.ofNat (48 + n) else Char.ofNat (55 + n)

/-- The UTF-8 byte sequence of a string (Go strings are byte slices; URL
escaping operates on those bytes). -/
def utf8Bytes (s : String) : List UInt8 :=
  s.data.flatMap String.utf8EncodeChar

/-- Go's `url.QueryEscape`, applied byte-wise to the UTF-8 encoding:
unreserved bytes (ASCII letters, digits, `-` `_` `.` `~`) pass through, a
space becomes `+`, every other byte becomes `%XX` with upper-case hex. -/
def queryEscape (s : String) : String :=
  String.join ((utf8Bytes s).map fun b =>
    let n := b.toNat
    if (65 ≤ n ∧ n ≤ 90) ∨ (97 ≤ n ∧ n ≤ 122) ∨ (48 ≤ n ∧ n ≤ 57)
        ∨ n = 45 ∨ n = 95 ∨ n = 46 ∨ n = 126 then
      String.singleton (Char.ofNat n)
    else if n = 32 then "+"
    else "%" ++ String.singleton (hexDigit (n / 16)) ++ String.singleton (hexDigit (n % 16)))

/-- Lexicographic `≤` on byte sequences. -/
def bytesLe : List UInt8 → List UInt8 → Bool
  | [], _ => true
  | _ :: _, [] => false
  | a :: as, b :: bs => if a < b then true else if b < a then false else bytesLe as bs

/-- Go's string ordering: lexicographic comparison of the UTF-8 bytes. -/
def strLe (s t : String) : Bool := bytesLe (utf8Bytes s) (utf8Bytes t)

/-- Insert a pair into a key-sorted list, keeping it sorted by key. -/
def insertByKey (p : String × String) : List (String × String) → List (String × String)
  | [] => [p]
  | q :: rest => if strLe p.1 q.1 then p :: q :: rest else q :: insertByKey p rest

/-- Sort a parameter list by key, ascending (all keys of this program are
distinct, so any comparison sort agrees with Go's). -/
def sortByKey : List (String × String) → List (String × String)
  | [] => []
  | p :: rest => insertByKey p (sortByKey rest)

/-- Go's `url.Values.Encode()` for single-valued keys: pairs sorted by key,
each rendered `escape(k)=escape(v)`, joined with `&`. -/
def encodeValues (ps : List (String × String)) : String :=
  String.intercalate "&" ((sortByKey ps).map fun p => queryEscape p.1 ++ "=" ++ queryEscape p.2)

/-- The process environment: `none` for an unset variable, `some v` for one
set to `v` (possibly the empty string). -/
def Env : Type := String → Option String

/-- Go's `os.Getenv`: the empty string when the variable is unset. -/
def osGetenv (env : Env) (key : String) : String := (env key).getD ""

/-- The program's `getEnvOrDefault`: the variable's value when it is set to
a non-empty string, the fallback otherwise. -/
def getEnvOrDefault (env : Env) (key defaultValue : String) : String :=
  let value := osGetenv env key
  if value ≠ "" then value else defaultValue

/-- The program's `Config` struct. -/
structure Config where
  port : String
  cookie : String
  realIP : String
  level : String
  neteaseMusicAPI : String

/-- The config assembled by the program's `init` function (after the
optional `.env` file has already populated `env`). -/
def loadConfig (env : Env) : Config :=
  { port := getEnvOrDefault env "PORT" "8080"
    cookie := getEnvOrDefault env "NETEASE_COOKIE" ""
    realIP := getEnvOrDefault env "REAL_IP" "116.25.146.177"
    level := getEnvOrDefault env "LEVEL" "exhigh"
    neteaseMusicAPI := getEnvOrDefault env "NETEASE_MUSIC_API" "https://example.com" }

/-- Outcome of process startup: `fatal` models `log.Fatal` during `init`
(the process exits before `main` binds any listener or serves a request);
`serving cfg` models reaching `r.Run` with the given config. -/
inductive StartupResult where
  | fatal
  | serving (config : Config)

/-- The `init` check: load the config, then `log.Fatal` when the cookie is
empty, otherwise proceed to serve. -/
def startup (env : Env) : StartupResult :=
  let config := loadConfig env
  if config.cookie = "" then .fatal else .serving config

/-- The query parameters of one inbound `GET /song` request, each `none`
when the parameter is absent.  Gin's `c.Query k` returns `""` for an absent
parameter; `c.DefaultQuery k d` returns `d` only when `k` is absent. -/
structure GinQuery where
  id : Option String
  level : Option String
  realip : Option String

/-- Gin's `c.Query`: the value, or `""` when absent. -/
def cQuery (p : Option String) : String := p.getD ""

/-- Gin's `c.DefaultQuery`: the value verbatim (even empty) when the
parameter is present, the default when absent. -/
def cDefaultQuery (p : Option String) (d : String) : String :=
  match p with
  | some v => v
  | none => d

/-- The outbound upstream request built by the handler: the target URL
without query, the parameter list in the order the handler adds them, and
the full URL `apiURL ++ "?" ++ encodeValues params`. -/
structure UpstreamRequest where
  apiURL : String
  params : List (String × String)
  fullURL : String

/-- What the single outbound `http.Get` produces: a transport error, a
reply whose body read fails, or a reply with HTTP status `status` and a
fully read body (`none` = the bytes are not well-formed JSON, `some v` =
they parse to `v`). -/
inductive UpstreamOutcome where
  | transportError
  | readError (status : Nat)
  | response (status : Nat) (body : Option JValue)

/-- A response the relay hands to its caller: HTTP status plus the JSON
document serialized by `c.JSON`. -/
structure HResponse where
  status : Nat
  body : JValue

/-- Serialization of the `ErrorResponse` struct `{code, message}`. -/
def errorBody (code : Int) (message : String) : JValue :=
  .obj [("code", .num code), ("message", .str message)]

/-- The `getSongURL` handler.  `nowMillis` is the epoch-millisecond
timestamp taken at send time and `outcome` what the outbound call produces.
The second component is the upstream request the handler sent, `none` when
validation failed before any outbound call. -/
def getSongURL (config : Config) (q : GinQuery) (nowMillis : Int)
    (outcome : UpstreamOutcome) : HResponse × Option UpstreamRequest :=
  let idStr := cQuery q.id
  if idStr = "" then
    (⟨400, errorBody 400 "Missing required parameter: id"⟩, none)
  else
    match Atoi idStr with
    | none => (⟨400, errorBody 400 "Invalid song id format"⟩, none)
    | some songID =>
      let level := cDefaultQuery q.level config.level
      let realIP := cDefaultQuery q.realip config.realIP
      let apiURL := config.neteaseMusicAPI ++ "/song/url/v1"
      let params : List (String × String) :=
        [("id", Itoa songID), ("level", level), ("timestamp", toString nowMillis),
         ("cookie", config.cookie), ("realIP", realIP)]
      let req : UpstreamRequest := ⟨apiURL, params, apiURL ++ "?" ++ encodeValues params⟩
      match outcome with
      | .transportError =>
          (⟨500, errorBody 500 "Failed to request music service"⟩, some req)
      | .readError _ =>
          (⟨500, errorBody 500 "Failed to read response from music service"⟩, some req)
      | .response _ body =>
        match body with
        | none => (⟨500, errorBody 500 "Failed to parse response from music service"⟩, some req)
        | some parsed =>
          match decodeSongURLResponse parsed with
          | none => (⟨500, errorBody 500 "Failed to parse response from music service"⟩, some req)
          | some songResp =>
            if songResp.code ≠ 200 then
              (⟨400, errorBody songResp.code "Music service returned error"⟩, some req)
            else
              (⟨200, marshalSongURLResponse songResp⟩, some req)

/-- The `GET /health` handler at clock reading `nowUnix` (unix seconds).
`c.JSON` serializes the `gin.H` map with its keys sorted. -/
def healthHandler (nowUnix : Int) : HResponse :=
  ⟨200, .obj [("service", .str "PublicMusicService"), ("status", .str "ok"),
              ("timestamp", .num nowUnix), ("version", .str "1.0.0")]⟩

/-- Look up a key in a JSON object (first occurrence). -/
def jsonLookup (v : JValue) (key : String) : Option JValue :=
  match v with
  | .obj fields => (fields.find? (fun kv => kv.1 == key)).map Prod.snd
  | _ => none

/-- Number of fields of a JSON object (0 for any other value). -/
def objLen : JValue → Nat
  | .obj fields => fields.length
  | _ => 0

/-- Point update of an environment. -/
def updateEnv (env : Env) (key : String) (v : Option String) : Env :=
  fun k => if k = key then v else env k

/-- A concrete config for witnesses. -/
def cfgEx : Config :=
  { port := "8080", cookie := "ck", realIP := "1.2.3.4", level := "exhigh",
    neteaseMusicAPI := "https://example.com" }

/-- A concrete inbound query (id only) for witnesses. -/
def qEx : GinQuery := { id := some "5", level := none, realip := none }

/-- An upstream body with `code` 200 and an unrecognized extra field. -/
def jvExtra : JValue :=
  .obj [("code", .num 200), ("data", .arr []), ("extra", .num 1)]

/-- A well-formed success body. -/
def jvOk : JValue := .obj [("code", .num 200), ("data", .arr [])]

/-- An inbound query whose id has a sign and leading zeros. -/
def qPlus : GinQuery := { id := some "+007", level := none, realip := none }

/-- An inbound query overriding `level` and `realip`. -/
def qOvr : GinQuery := { id := some "5", level := some "lossless", realip := some "9.9.9.9" }

/-- An environment with only the cookie set. -/
def envEx : Env := fun k => if k = "NETEASE_COOKIE" then some "ck" else none

/-- The empty environment. -/
def envUnset : Env := fun _ => none

/-! ## Helper lemmas -/

theorem Atoi_ne_empty {s : String} {n : Int} (h : Atoi s = some n) : s ≠ "" := by
  intro he
  subst he
  exact Option.noConfusion h

/-- When the id parses, `getSongURL` reaches the outbound call and maps the
outcome as in the source. -/
theorem getSongURL_unfold_valid (config : Config) (q : GinQuery) (ts : Int)
    (outcome : UpstreamOutcome) (n : Int) (h : Atoi (cQuery q.id) = some n) :
    getSongURL config q ts outcome =
      (let apiURL := config.neteaseMusicAPI ++ "/song/url/v1"
       let params : List (String × String) :=
         [("id", Itoa n), ("level", cDefaultQuery q.level config.level),
          ("timestamp", toString ts), ("cookie", config.cookie),
          ("realIP", cDefaultQuery q.realip config.realIP)]
       let req : UpstreamRequest := ⟨apiURL, params, apiURL ++ "?" ++ encodeValues params⟩
       match outcome with
       | .transportError =>
           (⟨500, errorBody 500 "Failed to request music service"⟩, some req)
       | .readError _ =>
           (⟨500, errorBody 500 "Failed to read response from music service"⟩, some req)
       | .response _ none =>
           (⟨500, errorBody 500 "Failed to parse response from music service"⟩, some req)
       | .response _ (some parsed) =>
         match decodeSongURLResponse parsed with
         | none => (⟨500, errorBody 500 "Failed to parse response from music service"⟩, some req)
         | some songResp =>
           if songResp.code ≠ 200 then
             (⟨400, errorBody songResp.code "Music service returned error"⟩, some req)
           else
             (⟨200, marshalSongURLResponse songResp⟩, some req)) := by
  have hne : cQuery q.id ≠ "" := Atoi_ne_empty h
  simp only [getSongURL]
  rw [if_neg hne, h]
  cases outcome with
  | transportError => rfl
  | readError s => rfl
  | response s body =>
    cases body with
    | none => rfl
    | some parsed =>
      cases hd : decodeSongURLResponse parsed with
      | none => rfl
      | some songResp => rfl

/-- When the id parses, the handler sends exactly one upstream request,
whatever the outcome, and it is the one built from the query. -/
theorem getSongURL_sent (config : Config) (q : GinQuery) (ts : Int)
    (outcome : UpstreamOutcome) (n : Int) (h : Atoi (cQuery q.id) = some n) :
    (getSongURL config q ts outcome).2 =
      some ⟨config.neteaseMusicAPI ++ "/song/url/v1",
            [("id", Itoa n), ("level", cDefaultQuery q.level config.level),
             ("timestamp", toString ts), ("cookie", config.cookie),
             ("realIP", cDefaultQuery q.realip config.realIP)],
            (config.neteaseMusicAPI ++ "/song/url/v1") ++ "?" ++
              encodeValues
                [("id", Itoa n), ("level", cDefaultQuery q.level config.level),
                 ("timestamp", toString ts), ("cookie", config.cookie),
                 ("realIP", cDefaultQuery q.realip config.realIP)]⟩ := by
  have hne : cQuery q.id ≠ "" := Atoi_ne_empty h
  cases outcome with
  | transportError => simp [getSongURL, hne, h]
  | readError s => simp [getSongURL, hne, h]
  | response s body =>
    cases body with
    | none => simp [getSongURL, hne, h]
    | some parsed =>
      cases hd : decodeSongURLResponse parsed with
      | none => simp [getSongURL, hne, h, hd]
      | some songResp => simp [getSongURL, hne, h, hd, apply_ite]

/-! ## Claims -/

/-- C1 (as stated, refuted): an upstream body that decodes with code 200 is
NOT always passed through verbatim — an unrecognized upstream field is
dropped by the re-serialization, so the relayed 200 body differs from the
body received. -/
theorem C1_counterexample :
    (getSongURL cfgEx qEx 99 (.response 200 (some jvExtra))).1.status = 200 ∧
    (getSongURL cfgEx qEx 99 (.response 200 (some jvExtra))).1.body ≠ jvExtra := by
  refine ⟨rfl, fun hEq => ?_⟩
  have h2 : objLen (getSongURL cfgEx qEx 99 (.response 200 (some jvExtra))).1.body = 2 := rfl
  rw [hEq] at h2
  exact absurd h2 (by decide)

/-- C1 (amended): for every upstream body that decodes with code = 200,
`getSongURL` returns HTTP 200 whose body is the decoded `SongURLResponse`
re-serialized through the struct's fixed field set (recognized fields
preserved, unrecognized fields dropped, absent fields at zero values). -/
theorem C1_success_reserialized (config : Config) (q : GinQuery) (ts : Int)
    (status : Nat) (jv : JValue) (n : Int) (r : SongURLResponse)
    (hid : Atoi (cQuery q.id) = some n)
    (hdec : decodeSongURLResponse jv = some r) (hcode : r.code = 200) :
    (getSongURL config q ts (.response status (some jv))).1 =
      ⟨200, marshalSongURLResponse r⟩ := by
  rw [getSongURL_unfold_valid config q ts _ n hid]
  simp [hdec, hcode]

/-- Witness for C1: a concrete success body round-trips through decode and
re-serialization. -/
theorem C1_success_reserialized_witness :
    (getSongURL cfgEx qEx 99 (.response 200 (some jvOk))).1 =
      ⟨200, marshalSongURLResponse { code := 200, data := some [] }⟩ :=
  C1_success_reserialized cfgEx qEx 99 200 jvOk 5 { code := 200, data := some [] } rfl rfl rfl

/-- C2: with a valid id, an upstream body that is malformed JSON or fails to
decode into the `SongURLResponse` shape yields HTTP 500 with code 500 and
message "Failed to parse response from music service". -/
theorem C2_parse_failure_500 (config : Config) (q : GinQuery) (ts : Int)
    (status : Nat) (n : Int) (body : Option JValue)
    (hid : Atoi (cQuery q.id) = some n)
    (hbad : body = none ∨ ∃ jv, body = some jv ∧ decodeSongURLResponse jv = none) :
    (getSongURL config q ts (.response status body)).1 =
      ⟨500, errorBody 500 "Failed to parse response from music service"⟩ := by
  rw [getSongURL_unfold_valid config q ts _ n hid]
  rcases hbad with h | ⟨jv, hb, hdec⟩
  · subst h; rfl
  · subst hb; simp [hdec]

/-- Witness for C2: a JSON string body (shape mismatch) is rejected with the
parse-failure 500. -/
theorem C2_parse_failure_500_witness :
    (getSongURL cfgEx qEx 99 (.response 200 (some (.str "oops")))).1 =
      ⟨500, errorBody 500 "Failed to parse response from music service"⟩ :=
  C2_parse_failure_500 cfgEx qEx 99 200 5 (some (.str "oops")) rfl
    (Or.inr ⟨.str "oops", rfl, rfl⟩)

/-- C3: with a valid id, an upstream body that decodes with code ≠ 200
yields HTTP 400 with the upstream code and message "Music service returned
error". -/
theorem C3_upstream_rejected_400 (config : Config) (q : GinQuery) (ts : Int)
    (status : Nat) (jv : JValue) (n : Int) (r : SongURLResponse)
    (hid : Atoi (cQuery q.id) = some n)
    (hdec : decodeSongURLResponse jv = some r) (hcode : r.code ≠ 200) :
    (getSongURL config q ts (.response status (some jv))).1 =
      ⟨400, errorBody r.code "Music service returned error"⟩ := by
  rw [getSongURL_unfold_valid config q ts _ n hid]
  simp [hdec, hcode]

/-- Witness for C3: upstream code 404 yields HTTP 400 with code 404. -/
theorem C3_upstream_rejected_400_witness :
    (getSongURL cfgEx qEx 99 (.response 200 (some (.obj [("code", .num 404)])))).1 =
      ⟨400, errorBody 404 "Music service returned error"⟩ :=
  C3_upstream_rejected_400 cfgEx qEx 99 200 (.obj [("code", .num 404)]) 5
    { code := 404, data := none } rfl rfl (by decide)

/-- C4: a missing (empty) id yields HTTP 400 "Missing required parameter:
id" and a present but non-integer id yields HTTP 400 "Invalid song id
format"; in both cases no upstream request is sent (the result is the same
for every outcome and the sent request is `none`). -/
theorem C4_invalid_id_400 (config : Config) (q : GinQuery) (ts : Int)
    (outcome : UpstreamOutcome) :
    (cQuery q.id = "" →
      getSongURL config q ts outcome =
        (⟨400, errorBody 400 "Missing required parameter: id"⟩, none)) ∧
    (cQuery q.id ≠ "" → Atoi (cQuery q.id) = none →
      getSongURL config q ts outcome =
        (⟨400, errorBody 400 "Invalid song id format"⟩, none)) := by
  constructor
  · intro h
    simp [getSongURL, h]
  · intro hne hA
    simp [getSongURL, hne, hA]

/-- Witness for C4: an absent id and a non-numeric id, each with a live
outcome that is never consulted. -/
theorem C4_invalid_id_400_witness :
    getSongURL cfgEx { id := none, level := none, realip := none } 99 .transportError =
      (⟨400, errorBody 400 "Missing required parameter: id"⟩, none) ∧
    getSongURL cfgEx { id := some "12abc", level := none, realip := none } 99 .transportError =
      (⟨400, errorBody 400 "Invalid song id format"⟩, none) :=
  ⟨(C4_invalid_id_400 cfgEx { id := none, level := none, realip := none } 99 .transportError).1 rfl,
   (C4_invalid_id_400 cfgEx { id := some "12abc", level := none, realip := none } 99
      .transportError).2 (by decide) rfl⟩

/-- C5: for every id string that parses as an integer, the outbound request
targets `{upstreamBaseURL}/song/url/v1`, its parameter list is exactly id,
level, timestamp, cookie, realIP with the id value the canonical decimal
string of the parsed integer, and the full URL is the target plus the
form-encoding of exactly those parameters. -/
theorem C5_outbound_request (config : Config) (q : GinQuery) (ts : Int)
    (outcome : UpstreamOutcome) (n : Int) (hid : Atoi (cQuery q.id) = some n) :
    ∃ req : UpstreamRequest,
      (getSongURL config q ts outcome).2 = some req ∧
      req.apiURL = config.neteaseMusicAPI ++ "/song/url/v1" ∧
      req.params =
        [("id", Itoa n), ("level", cDefaultQuery q.level config.level),
         ("timestamp", toString ts), ("cookie", config.cookie),
         ("realIP", cDefaultQuery q.realip config.realIP)] ∧
      req.fullURL = req.apiURL ++ "?" ++ encodeValues req.params :=
  ⟨_, getSongURL_sent config q ts outcome n hid, rfl, rfl, rfl⟩

/-- Witness for C5: `id=+007` is canonicalized to `7` in the outbound
query. -/
theorem C5_outbound_request_witness :
    (getSongURL cfgEx qPlus 0 .transportError).2 =
      some ⟨"https://example.com/song/url/v1",
            [("id", "7"), ("level", "exhigh"), ("timestamp", "0"),
             ("cookie", "ck"), ("realIP", "1.2.3.4")],
            "https://example.com/song/url/v1?cookie=ck&id=7&level=exhigh&realIP=1.2.3.4&timestamp=0"⟩ := by
  obtain ⟨req, hsent, hapi, hparams, hfull⟩ :=
    C5_outbound_request cfgEx qPlus 0 .transportError 7 rfl
  obtain ⟨a, p, f⟩ := req
  dsimp only at hapi hparams hfull
  subst hapi
  subst hparams
  subst hfull
  exact hsent

/-- C6: with a valid id, a present `level` (resp. `realip`) query parameter
appears verbatim as the outbound `level` (resp. `realIP`) parameter, and an
absent one is replaced by the configured default. -/
theorem C6_level_realip_resolution (config : Config) (q : GinQuery) (ts : Int)
    (outcome : UpstreamOutcome) (n : Int) (hid : Atoi (cQuery q.id) = some n) :
    ∃ req : UpstreamRequest,
      (getSongURL config q ts outcome).2 = some req ∧
      (∀ s, q.level = some s → ("level", s) ∈ req.params) ∧
      (q.level = none → ("level", config.level) ∈ req.params) ∧
      (∀ s, q.realip = some s → ("realIP", s) ∈ req.params) ∧
      (q.realip = none → ("realIP", config.realIP) ∈ req.params) := by
  refine ⟨_, getSongURL_sent config q ts outcome n hid, ?_, ?_, ?_, ?_⟩
  · intro s hs; simp [hs, cDefaultQuery]
  · intro hn; simp [hn, cDefaultQuery]
  · intro s hs; simp [hs, cDefaultQuery]
  · intro hn; simp [hn, cDefaultQuery]

/-- Witness for C6: explicit `level` and `realip` overrides appear verbatim
among the outbound parameters. -/
theorem C6_level_realip_resolution_witness :
    ("level", "lossless") ∈
      ((getSongURL cfgEx qOvr 0 .transportError).2.map UpstreamRequest.params).getD [] ∧
    ("realIP", "9.9.9.9") ∈
      ((getSongURL cfgEx qOvr 0 .transportError).2.map UpstreamRequest.params).getD [] := by
  obtain ⟨req, hsent, hl, -, hr, -⟩ :=
    C6_level_realip_resolution cfgEx qOvr 0 .transportError 5 rfl
  rw [hsent]
  exact ⟨hl _ rfl, hr _ rfl⟩

/-- C7: startup is fatal (no listener, no request served) exactly when the
cookie resolves empty, and otherwise serves with the settings resolved from
PORT, REAL_IP, LEVEL, NETEASE_MUSIC_API with their documented defaults. -/
theorem C7_startup_config (env : Env) :
    (osGetenv env "NETEASE_COOKIE" = "" → startup env = .fatal) ∧
    (osGetenv env "NETEASE_COOKIE" ≠ "" →
      startup env = .serving
        { port := if osGetenv env "PORT" = "" then "8080" else osGetenv env "PORT",
          cookie := osGetenv env "NETEASE_COOKIE",
          realIP :=
            if osGetenv env "REAL_IP" = "" then "116.25.146.177" else osGetenv env "REAL_IP",
          level := if osGetenv env "LEVEL" = "" then "exhigh" else osGetenv env "LEVEL",
          neteaseMusicAPI :=
            if osGetenv env "NETEASE_MUSIC_API" = "" then "https://example.com"
            else osGetenv env "NETEASE_MUSIC_API" }) := by
  constructor
  · intro h
    simp [startup, loadConfig, getEnvOrDefault, h]
  · intro h
    simp [startup, loadConfig, getEnvOrDefault, h, ite_not]

/-- Witness for C7: an unset cookie is fatal; with only the cookie set all
defaults apply. -/
theorem C7_startup_config_witness :
    startup envUnset = .fatal ∧
    startup envEx = .serving
      { port := "8080", cookie := "ck", realIP := "116.25.146.177",
        level := "exhigh", neteaseMusicAPI := "https://example.com" } :=
  ⟨(C7_startup_config envUnset).1 rfl, (C7_startup_config envEx).2 (by decide)⟩

/-- C8 (as stated, refuted): the health timestamp is NOT strictly increasing
across successive calls — two calls within the same unix second return equal
timestamps. -/
theorem C8_counterexample :
    ¬ (∀ t1 t2 : Int, t1 ≤ t2 →
        ∀ q1 q2 : ℚ,
          jsonLookup (healthHandler t1).body "timestamp" = some (.num q1) →
          jsonLookup (healthHandler t2).body "timestamp" = some (.num q2) →
          q1 < q2) := by
  intro h
  exact lt_irrefl _ (h 5 5 le_rfl _ _ rfl rfl)

/-- C8 (amended): every `GET /health` call returns HTTP 200 with status
"ok" and the current unix-seconds timestamp; across successive calls (clock
non-decreasing) the timestamps are non-decreasing, but only weakly — calls
in the same second repeat the value. -/
theorem C8_health_ok_and_monotone (t1 t2 : Int) (hle : t1 ≤ t2) :
    (healthHandler t1).status = 200 ∧
    jsonLookup (healthHandler t1).body "status" = some (.str "ok") ∧
    jsonLookup (healthHandler t1).body "timestamp" = some (.num (t1 : ℚ)) ∧
    (∀ q1 q2 : ℚ,
      jsonLookup (healthHandler t1).body "timestamp" = some (.num q1) →
      jsonLookup (healthHandler t2).body "timestamp" = some (.num q2) →
      q1 ≤ q2) := by
  refine ⟨rfl, rfl, rfl, ?_⟩
  intro q1 q2 h1 h2
  have e1 : some (JValue.num (t1 : ℚ)) = some (.num q1) := h1
  have e2 : some (JValue.num (t2 : ℚ)) = some (.num q2) := h2
  injection e1 with e1'
  injection e2 with e2'
  injection e1' with e1''
  injection e2' with e2''
  rw [← e1'', ← e2'']
  exact Int.cast_le.mpr hle

/-- Witness for C8: calls at seconds 3 then 4 are ok and ordered. -/
theorem C8_health_ok_and_monotone_witness :
    (healthHandler 3).status = 200 ∧
    jsonLookup (healthHandler 3).body "status" = some (.str "ok") ∧
    jsonLookup (healthHandler 3).body "timestamp" = some (.num ((3 : Int) : ℚ)) ∧
    ((3 : Int) : ℚ) ≤ ((4 : Int) : ℚ) := by
  obtain ⟨h1, h2, h3, h4⟩ := C8_health_ok_and_monotone 3 4 (by decide)
  exact ⟨h1, h2, h3, h4 _ _ rfl rfl⟩

/-- Environments differing only in an unset-vs-empty variable look the same
through `os.Getenv`. -/
theorem osGetenv_update_empty (env : Env) (key k : String) :
    osGetenv (updateEnv env key (some "")) k = osGetenv (updateEnv env key none) k := by
  by_cases hk : k = key <;> simp [osGetenv, updateEnv, hk]

/-- `getEnvOrDefault` only sees the environment through `os.Getenv`. -/
theorem getEnvOrDefault_ext {e1 e2 : Env} (k d : String)
    (h : osGetenv e1 k = osGetenv e2 k) :
    getEnvOrDefault e1 k d = getEnvOrDefault e2 k d := by
  simp [getEnvOrDefault, h]

/-- C9: a variable set to the empty string behaves exactly like an unset
one — at any key the documented default applies either way, the whole loaded
config is identical, and an empty NETEASE_COOKIE is fatal exactly like an
unset one. -/
theorem C9_empty_env_equals_unset (env : Env) (key dflt : String) :
    getEnvOrDefault (updateEnv env key (some "")) key dflt = dflt ∧
    getEnvOrDefault (updateEnv env key none) key dflt = dflt ∧
    loadConfig (updateEnv env key (some "")) = loadConfig (updateEnv env key none) ∧
    startup (updateEnv env "NETEASE_COOKIE" (some "")) = .fatal ∧
    startup (updateEnv env "NETEASE_COOKIE" none) = .fatal := by
  refine ⟨?_, ?_, ?_, ?_, ?_⟩
  · simp [getEnvOrDefault, osGetenv, updateEnv]
  · simp [getEnvOrDefault, osGetenv, updateEnv]
  · simp only [loadConfig]
    congr 1 <;> exact getEnvOrDefault_ext _ _ (osGetenv_update_empty env key _)
  · simp [startup, loadConfig, getEnvOrDefault, osGetenv, updateEnv]
  · simp [startup, loadConfig, getEnvOrDefault, osGetenv, updateEnv]

/-- C10: the upstream HTTP status never influences the result — for any
readable body the response is the same whatever the upstream status, and in
particular an upstream HTTP 500 whose body carries code 200 is relayed as
HTTP 200 success. -/
theorem C10_status_never_inspected (config : Config) (q : GinQuery) (ts : Int) :
    (∀ (s1 s2 : Nat) (body : Option JValue),
        getSongURL config q ts (.response s1 body) =
          getSongURL config q ts (.response s2 body)) ∧
    (∀ (n : Int) (jv : JValue) (r : SongURLResponse),
        Atoi (cQuery q.id) = some n →
        decodeSongURLResponse jv = some r → r.code = 200 →
        (getSongURL config q ts (.response 500 (some jv))).1 =
          ⟨200, marshalSongURLResponse r⟩) := by
  constructor
  · intro s1 s2 body
    by_cases hid : cQuery q.id = ""
    · simp [getSongURL, hid]
    · cases hA : Atoi (cQuery q.id) with
      | none => simp [getSongURL, hid, hA]
      | some n =>
        rw [getSongURL_unfold_valid config q ts (.response s1 body) n hA,
            getSongURL_unfold_valid config q ts (.response s2 body) n hA]
        cases body <;> rfl
  · intro n jv r hid hdec hcode
    rw [getSongURL_unfold_valid config q ts _ n hid]
    simp [hdec, hcode]

/-- Witness for C10: an upstream HTTP 500 carrying a code-200 body is
relayed identically to an upstream HTTP 200, as a 200 success. -/
theorem C10_status_never_inspected_witness :
    getSongURL cfgEx qEx 99 (.response 500 (some jvOk)) =
      getSongURL cfgEx qEx 99 (.response 200 (some jvOk)) ∧
    (getSongURL cfgEx qEx 99 (.response 500 (some jvOk))).1 =
      ⟨200, marshalSongURLResponse { code := 200, data := some [] }⟩ := by
  obtain ⟨h1, h2⟩ := C10_status_never_inspected cfgEx qEx 99
  exact ⟨h1 500 200 (some jvOk), h2 5 jvOk { code := 200, data := some [] } rfl rfl rfl⟩

end PMS
